import Mathlib

/-!
Verification of the Fidget sleep-prevention utility (`fidget.py`).

The development shallowly embeds the state and operations of `FidgetApp`:
mutable attributes become fields of `AppState`, the OS / randomness
environment of one call becomes an explicit `JEnv` record, and each method
becomes a state-transformer function.  Log lines that the claims talk about
(the caffeinate-fallback warning, the degraded-prevention warning, error
logs) are modelled as counters in the state, and actual pointer movements
are recorded in a `moves` list so that "performs no pointer movement" is a
statement about the state.
-/

namespace Fidget

/-- The three mutually exclusive platform branches of `fidget.py`
(`sys.platform == 'darwin'`, `'win32'`, else Linux/X11). -/
inductive Platform where
  | darwin
  | win32
  | linux
deriving DecidableEq, Repr

/-- §4.1's strategy variant: power assertion (caffeinate) vs synthetic
pointer movement. -/
inductive PreventionStrategy where
  | PowerAssertion
  | SyntheticPointerMovement
deriving DecidableEq, Repr

/-- Which branch of `perform_jiggle` produced the cycle's result: the
caffeinate early-return, the range-0 skip, the mouse-movement path, or the
catch-all `except` handler. -/
inductive CyclePath where
  | powerAssertion
  | degradedSkip
  | movement
  | raised
deriving DecidableEq, Repr

/-- The mutable state of `FidgetApp`: `self.interval`,
`self.movement_range`, `self.jiggling`, `self.next_jiggle_time`,
`self.caffeinate_process` (pid of the live caffeinate subprocess, `none`
when the attribute is `None`), and the two `QTimer`s' running flags.
The remaining fields are observation ghosts: `releaseCount` counts
terminations of a caffeinate process, `fallbackLogs` counts the
"Falling back to mouse movement" warning of `start_caffeinate`,
`degradedLogs` counts the "Range is 0 but no caffeinate available"
warning, `errorLogs` counts error-level log lines, `moves` records every
delta passed to `move_mouse_relative`, and `lastPath` records which branch
the most recent `perform_jiggle` took. -/
structure AppState where
  interval : Nat
  movement_range : Nat
  jiggling : Bool
  next_jiggle_time : Int
  caffeinate_process : Option Nat
  jiggleTimerRunning : Bool
  countdownTimerRunning : Bool
  releaseCount : Nat
  fallbackLogs : Nat
  degradedLogs : Nat
  errorLogs : Nat
  moves : List (Int × Int)
  lastPath : Option CyclePath
deriving DecidableEq, Repr

/-- Environment of one platform read of the pointer position:
whether the underlying OS call fails (raises), the raw coordinates
returned when it succeeds, and which display contains the pointer
(`none` when no display's frame contains it). -/
structure ReadEnv where
  raises : Bool
  x : Int
  y : Int
  containing : Option Nat
deriving DecidableEq, Repr

/-- Result of `get_mouse_position`: `outcome` is `Except.error ()` when the
call propagates an exception to the caller, otherwise the `(x, y,
screen_index)` triple; `errorLogged` records whether the method itself
logged an error before returning. -/
structure ReadResult where
  outcome : Except Unit (Int × Int × Nat)
  errorLogged : Bool
deriving Repr

/-- `FidgetApp.get_mouse_position`.  The macOS branch has no
`try`/`except`: a failing platform call propagates out of the method.  The
Windows and Linux branches wrap everything in `try`/`except`, log the
error and return `(0, 0, 0)`.  When no display's frame contains the
pointer, macOS falls back to the main screen with index 0 and Windows
leaves `screen_index` at its initial 0; the Linux branch always reports
screen 0. -/
def get_mouse_position (p : Platform) (e : ReadEnv) : ReadResult :=
  match p with
  | Platform.darwin =>
      if e.raises then { outcome := Except.error (), errorLogged := false }
      else { outcome := Except.ok (e.x, e.y, e.containing.getD 0), errorLogged := false }
  | Platform.win32 =>
      if e.raises then { outcome := Except.ok (0, 0, 0), errorLogged := true }
      else { outcome := Except.ok (e.x, e.y, e.containing.getD 0), errorLogged := false }
  | Platform.linux =>
      if e.raises then { outcome := Except.ok (0, 0, 0), errorLogged := true }
      else { outcome := Except.ok (e.x, e.y, 0), errorLogged := false }

/-- Environment of one scheduler call: the current wall clock
(`time.time()`), whether spawning a fresh caffeinate process succeeds and
its pid, whether an existing caffeinate process is still running
(`poll() is None`), the two `random.randint(-r, r)` draws, and the
environments of the two pointer reads of a movement cycle. -/
structure JEnv where
  now : Int
  spawnOk : Bool
  newPid : Nat
  procAlive : Bool
  draw1 : Int
  draw2 : Int
  read1 : ReadEnv
  read2 : ReadEnv
deriving DecidableEq, Repr

/-- `FidgetApp.stop_caffeinate`: when a process handle is held, terminate
it and clear the attribute; a no-op when `self.caffeinate_process` is
`None`. -/
def stop_caffeinate (s : AppState) : AppState :=
  match s.caffeinate_process with
  | some _ => { s with caffeinate_process := none, releaseCount := s.releaseCount + 1 }
  | none => s

/-- `FidgetApp.start_caffeinate`: returns immediately off macOS; otherwise
first stops any existing process, then spawns `caffeinate -d -i`.  On
spawn failure it logs the "Falling back to mouse movement" warning and
leaves `self.caffeinate_process = None`. -/
def start_caffeinate (p : Platform) (e : JEnv) (s : AppState) : AppState :=
  if p = Platform.darwin then
    let s1 := stop_caffeinate s
    if e.spawnOk then { s1 with caffeinate_process := some e.newPid }
    else { s1 with fallbackLogs := s1.fallbackLogs + 1 }
  else s

/-- The condition guarding `start_caffeinate` in `start_jiggling` and the
caffeinate branch of `perform_jiggle`:
`sys.platform == 'darwin' and (self.movement_range == 0 or not
args.force_mouse)`.  Read as §4.1's `select_strategy`. -/
def select_strategy (p : Platform) (range : Nat) (force_mouse : Bool) :
    PreventionStrategy :=
  if p = Platform.darwin ∧ (range = 0 ∨ force_mouse = false) then
    PreventionStrategy.PowerAssertion
  else
    PreventionStrategy.SyntheticPointerMovement

/-- `FidgetApp.start_jiggling`: guarded by `if not self.jiggling`; sets
the active flag and `next_jiggle_time = time.time() + self.interval`,
starts caffeinate when on macOS and (range is 0 or mouse movement is not
forced), then starts both timers. -/
def start_jiggling (p : Platform) (force_mouse : Bool) (e : JEnv) (s : AppState) :
    AppState :=
  if s.jiggling then s
  else
    let s1 := { s with jiggling := true,
                       next_jiggle_time := e.now + (s.interval : Int) }
    let s2 := if p = Platform.darwin ∧ (s1.movement_range = 0 ∨ force_mouse = false)
              then start_caffeinate p e s1 else s1
    { s2 with jiggleTimerRunning := true, countdownTimerRunning := true }

/-- `FidgetApp.stop_jiggling`: guarded by `if self.jiggling`; clears the
active flag, stops both timers, and on macOS stops the caffeinate
process. -/
def stop_jiggling (p : Platform) (s : AppState) : AppState :=
  if s.jiggling then
    let s1 := { s with jiggling := false,
                       jiggleTimerRunning := false,
                       countdownTimerRunning := false }
    if p = Platform.darwin then stop_caffeinate s1 else s1
  else s

/-- The delta computation of `perform_jiggle`: the two `random.randint`
draws, with `dx` forced to 1 when both are zero. -/
def computeDelta (d1 d2 : Int) : Int × Int :=
  if d1 = 0 ∧ d2 = 0 then (1, d2) else (d1, d2)

/-- `FidgetApp.perform_jiggle`.  The whole body is a `try`: on macOS with
(range 0 or mouse not forced), a dead caffeinate process is restarted and
a live one makes the cycle return `True` after resetting
`next_jiggle_time`; a range of 0 skips movement with a degraded-prevention
warning; otherwise the cycle reads the position, computes a delta, moves
the mouse, reads again, and resets `next_jiggle_time`.  An exception
escaping the body (the macOS position read is the uncaught call) lands in
the `except` handler, which logs the error and returns `False` without
touching `next_jiggle_time`.  The opening caffeinate-refresh step is split
out as `refresh_caffeinate` below: on macOS with (range 0 or mouse not
forced), a caffeinate process that has exited (`poll() is not None`) is
restarted; otherwise the state is untouched. -/
def refresh_caffeinate (p : Platform) (force_mouse : Bool) (e : JEnv)
    (s : AppState) : AppState :=
  if p = Platform.darwin ∧ (s.movement_range = 0 ∨ force_mouse = false) then
    match s.caffeinate_process with
    | some _ => if e.procAlive then s else start_caffeinate p e s
    | none => s
  else s

/-- The rest of `FidgetApp.perform_jiggle`, continuing from
`refresh_caffeinate`. -/
def perform_jiggle (p : Platform) (force_mouse : Bool) (e : JEnv) (s : AppState) :
    AppState × Bool :=
  let s1 := refresh_caffeinate p force_mouse e s
  if (p = Platform.darwin ∧ (s1.movement_range = 0 ∨ force_mouse = false)) ∧
      s1.caffeinate_process.isSome then
    ({ s1 with next_jiggle_time := e.now + (s1.interval : Int),
               lastPath := some CyclePath.powerAssertion }, true)
  else if s1.movement_range = 0 then
    ({ s1 with degradedLogs := s1.degradedLogs + 1,
               next_jiggle_time := e.now + (s1.interval : Int),
               lastPath := some CyclePath.degradedSkip }, true)
  else
    let r1 := get_mouse_position p e.read1
    let s2 := { s1 with errorLogs := s1.errorLogs + (if r1.errorLogged then 1 else 0) }
    match r1.outcome with
    | Except.error _ =>
        ({ s2 with errorLogs := s2.errorLogs + 1,
                   lastPath := some CyclePath.raised }, false)
    | Except.ok _ =>
        let d := computeDelta e.draw1 e.draw2
        let s3 := { s2 with moves := s2.moves ++ [d] }
        let r2 := get_mouse_position p e.read2
        let s4 := { s3 with errorLogs := s3.errorLogs + (if r2.errorLogged then 1 else 0) }
        match r2.outcome with
        | Except.error _ =>
            ({ s4 with errorLogs := s4.errorLogs + 1,
                       lastPath := some CyclePath.raised }, false)
        | Except.ok _ =>
            ({ s4 with next_jiggle_time := e.now + (s4.interval : Int),
                       lastPath := some CyclePath.movement }, true)

/-- `FidgetApp.set_movement_range`: stores the new range; on macOS a new
range of 0 while jiggling (re)starts caffeinate, and a positive range with
`--force_mouse` stops it. -/
def set_movement_range (p : Platform) (force_mouse : Bool) (e : JEnv)
    (pixels : Nat) (s : AppState) : AppState :=
  let s1 := { s with movement_range := pixels }
  if p = Platform.darwin ∧ pixels = 0 ∧ s1.jiggling then start_caffeinate p e s1
  else if p = Platform.darwin ∧ 0 < pixels ∧ force_mouse then stop_caffeinate s1
  else s1

/-- A run of consecutive timer ticks: fold `perform_jiggle` over a list of
per-tick environments. -/
def run_ticks (p : Platform) (force_mouse : Bool) (envs : List JEnv)
    (s : AppState) : AppState :=
  envs.foldl (fun st e => (perform_jiggle p force_mouse e st).1) s

/-- `FidgetApp.format_time_remaining`: minutes and seconds by integer
division; `"<m>m<s>s"` when there is at least one minute, else
`"<s>s"`. -/
def format_time_remaining (seconds : Nat) : String :=
  let minutes := seconds / 60
  let remaining_seconds := seconds % 60
  if 0 < minutes then
    toString minutes ++ "m" ++ toString remaining_seconds ++ "s"
  else
    toString remaining_seconds ++ "s"

/-- A benign read environment: the platform call succeeds and the pointer
is on a determinate display. -/
def readOk : ReadEnv :=
  { raises := false, x := 3, y := 4, containing := some 1 }

/-- A read environment whose platform call fails. -/
def readBad : ReadEnv :=
  { raises := true, x := 3, y := 4, containing := some 1 }

/-- A benign call environment: spawning caffeinate succeeds, an existing
process is alive, draws are (0, 0), reads succeed. -/
def envOk : JEnv :=
  { now := 100, spawnOk := true, newPid := 42, procAlive := true,
    draw1 := 0, draw2 := 0, read1 := readOk, read2 := readOk }

/-- A call environment where spawning caffeinate fails. -/
def envNoSpawn : JEnv :=
  { now := 100, spawnOk := false, newPid := 42, procAlive := true,
    draw1 := 0, draw2 := 0, read1 := readOk, read2 := readOk }

/-- A call environment where the first pointer read raises. -/
def envRaise : JEnv :=
  { now := 100, spawnOk := true, newPid := 42, procAlive := true,
    draw1 := 2, draw2 := 3, read1 := readBad, read2 := readOk }

/-- An idle state: not jiggling, no caffeinate process, empty logs. -/
def sIdle : AppState :=
  { interval := 240, movement_range := 5, jiggling := false,
    next_jiggle_time := 0, caffeinate_process := none,
    jiggleTimerRunning := false, countdownTimerRunning := false,
    releaseCount := 0, fallbackLogs := 0, degradedLogs := 0, errorLogs := 0,
    moves := [], lastPath := none }

/-- An active state with no caffeinate process and range 5. -/
def sActive : AppState :=
  { sIdle with jiggling := true, next_jiggle_time := 7,
               jiggleTimerRunning := true, countdownTimerRunning := true }

/-- An active state holding a caffeinate process, range 5. -/
def sHeld : AppState :=
  { sActive with caffeinate_process := some 9 }

/-- An active state with range 0 and no caffeinate process. -/
def sZero : AppState :=
  { sActive with movement_range := 0 }

end Fidget

open Fidget

section Projections

variable (p : Platform) (f : Bool) (e : JEnv) (s : AppState)

@[simp] theorem stop_caffeinate_jiggling : (stop_caffeinate s).jiggling = s.jiggling := by
  unfold stop_caffeinate; cases h : s.caffeinate_process <;> rfl

@[simp] theorem stop_caffeinate_interval : (stop_caffeinate s).interval = s.interval := by
  unfold stop_caffeinate; cases h : s.caffeinate_process <;> rfl

@[simp] theorem stop_caffeinate_range : (stop_caffeinate s).movement_range = s.movement_range := by
  unfold stop_caffeinate; cases h : s.caffeinate_process <;> rfl

@[simp] theorem stop_caffeinate_next : (stop_caffeinate s).next_jiggle_time = s.next_jiggle_time := by
  unfold stop_caffeinate; cases h : s.caffeinate_process <;> rfl

@[simp] theorem stop_caffeinate_proc : (stop_caffeinate s).caffeinate_process = none := by
  unfold stop_caffeinate; cases h : s.caffeinate_process <;> simp [h]

@[simp] theorem stop_caffeinate_fallback : (stop_caffeinate s).fallbackLogs = s.fallbackLogs := by
  unfold stop_caffeinate; cases h : s.caffeinate_process <;> rfl

theorem stop_caffeinate_release_le : (stop_caffeinate s).releaseCount ≤ s.releaseCount + 1 := by
  unfold stop_caffeinate
  cases h : s.caffeinate_process
  · exact Nat.le_succ _
  · exact Nat.le.refl

@[simp] theorem start_caffeinate_jiggling : (start_caffeinate p e s).jiggling = s.jiggling := by
  unfold start_caffeinate; split_ifs <;> simp

@[simp] theorem start_caffeinate_interval : (start_caffeinate p e s).interval = s.interval := by
  unfold start_caffeinate; split_ifs <;> simp

@[simp] theorem start_caffeinate_range : (start_caffeinate p e s).movement_range = s.movement_range := by
  unfold start_caffeinate; split_ifs <;> simp

@[simp] theorem start_caffeinate_next : (start_caffeinate p e s).next_jiggle_time = s.next_jiggle_time := by
  unfold start_caffeinate; split_ifs <;> simp

@[simp] theorem stop_caffeinate_release :
    (stop_caffeinate s).releaseCount =
      s.releaseCount + (if s.caffeinate_process.isSome = true then 1 else 0) := by
  unfold stop_caffeinate
  cases h : s.caffeinate_process <;> simp [h]

@[simp] theorem start_caffeinate_proc_darwin :
    (start_caffeinate Platform.darwin e s).caffeinate_process =
      (if e.spawnOk = true then some e.newPid else none) := by
  simp only [start_caffeinate]
  split_ifs <;> simp

@[simp] theorem start_caffeinate_release_darwin :
    (start_caffeinate Platform.darwin e s).releaseCount =
      (stop_caffeinate s).releaseCount := by
  simp only [start_caffeinate]
  split_ifs <;> rfl

theorem refresh_caffeinate_jiggling : (refresh_caffeinate p f e s).jiggling = s.jiggling := by
  unfold refresh_caffeinate
  split
  · cases h : s.caffeinate_process
    · rfl
    · split_ifs <;> simp
  · rfl

theorem refresh_caffeinate_interval : (refresh_caffeinate p f e s).interval = s.interval := by
  unfold refresh_caffeinate
  split
  · cases h : s.caffeinate_process
    · rfl
    · split_ifs <;> simp
  · rfl

theorem refresh_caffeinate_range :
    (refresh_caffeinate p f e s).movement_range = s.movement_range := by
  unfold refresh_caffeinate
  split
  · cases h : s.caffeinate_process
    · rfl
    · split_ifs <;> simp
  · rfl

theorem refresh_caffeinate_next :
    (refresh_caffeinate p f e s).next_jiggle_time = s.next_jiggle_time := by
  unfold refresh_caffeinate
  split
  · cases h : s.caffeinate_process
    · rfl
    · split_ifs <;> simp
  · rfl

theorem refresh_caffeinate_of_none (hn : s.caffeinate_process = none) :
    refresh_caffeinate p f e s = s := by
  unfold refresh_caffeinate
  split
  · rw [hn]
  · rfl

theorem stop_jiggling_not_jiggling : (stop_jiggling p s).jiggling = false := by
  unfold stop_jiggling
  cases hb : s.jiggling
  · simpa using hb
  · simp only [if_true]
    split_ifs <;> simp

theorem stop_jiggling_of_not_jiggling (h : s.jiggling = false) :
    stop_jiggling p s = s := by
  unfold stop_jiggling
  simp [h]

end Projections

/-- C9: `format_time_remaining` renders minutes and seconds as
`"<m>m<s>s"` when `seconds >= 60` and as `"<s>s"` otherwise, with
`format(0) = "0s"`, `format(65) = "1m5s"`, `format(120) = "2m0s"`. -/
theorem format_time_remaining_spec :
    ∀ s : Nat,
      format_time_remaining s =
        (if 60 ≤ s then toString (s / 60) ++ "m" ++ toString (s % 60) ++ "s"
         else toString s ++ "s") ∧
      format_time_remaining 0 = "0s" ∧
      format_time_remaining 65 = "1m5s" ∧
      format_time_remaining 120 = "2m0s" := by
  intro s
  refine ⟨?_, by decide, by decide, by decide⟩
  unfold format_time_remaining
  rcases Nat.lt_or_ge s 60 with h | h
  · have h1 : s / 60 = 0 := Nat.div_eq_of_lt h
    have h2 : s % 60 = s := Nat.mod_eq_of_lt h
    simp [h1, h2, Nat.not_le.mpr h]
  · have h1 : 0 < s / 60 := Nat.div_pos h (by norm_num)
    simp [h1, h]

/-- C4: for every movement range `r ≥ 1` and draws within `[-r, r]`, the
delta computed by a prevention cycle stays within `[-r, r]` in each
component, is never `(0, 0)`, and when both draws are zero `dx` is forced
to 1. -/
theorem delta_within_range_and_nonzero :
    ∀ (r : Nat) (d1 d2 : Int), 1 ≤ r →
      -(r : Int) ≤ d1 → d1 ≤ r → -(r : Int) ≤ d2 → d2 ≤ r →
      -(r : Int) ≤ (computeDelta d1 d2).1 ∧ (computeDelta d1 d2).1 ≤ r ∧
      -(r : Int) ≤ (computeDelta d1 d2).2 ∧ (computeDelta d1 d2).2 ≤ r ∧
      ¬((computeDelta d1 d2).1 = 0 ∧ (computeDelta d1 d2).2 = 0) ∧
      (d1 = 0 ∧ d2 = 0 → (computeDelta d1 d2).1 = 1) := by
  intro r d1 d2 hr h1 h2 h3 h4
  by_cases h : d1 = 0 ∧ d2 = 0
  · obtain ⟨e1, e2⟩ := h
    subst e1
    subst e2
    have hc : computeDelta 0 0 = (1, 0) := by decide
    rw [hc]
    refine ⟨?_, ?_, ?_, ?_, ?_, fun _ => rfl⟩ <;> simp <;> omega
  · have hc : computeDelta d1 d2 = (d1, d2) := by
      unfold computeDelta
      rw [if_neg h]
    rw [hc]
    exact ⟨h1, h2, h3, h4, h, fun hc2 => absurd hc2 h⟩

/-- Witness for C4 at `r = 5`, draws `(0, 0)`. -/
theorem delta_within_range_and_nonzero_witness :
    -(5 : Int) ≤ (computeDelta 0 0).1 ∧ (computeDelta 0 0).1 ≤ (5 : Nat) ∧
    -(5 : Int) ≤ (computeDelta 0 0).2 ∧ (computeDelta 0 0).2 ≤ (5 : Nat) ∧
    ¬((computeDelta 0 0).1 = 0 ∧ (computeDelta 0 0).2 = 0) ∧
    ((0 : Int) = 0 ∧ (0 : Int) = 0 → (computeDelta 0 0).1 = 1) :=
  delta_within_range_and_nonzero 5 0 0 (by decide) (by decide) (by decide)
    (by decide) (by decide)

/-- C10: calling `start_jiggling` while already active leaves the entire
state unchanged — the guard `if not self.jiggling` makes it a no-op. -/
theorem start_jiggling_noop_when_active :
    ∀ (p : Platform) (force : Bool) (e : JEnv) (s : AppState),
      s.jiggling = true → start_jiggling p force e s = s := by
  intro p force e s h
  unfold start_jiggling
  rw [h]
  rfl

/-- Witness for C10 at a concrete active state. -/
theorem start_jiggling_noop_when_active_witness :
    sActive.jiggling = true ∧
    start_jiggling Platform.darwin false envOk sActive = sActive :=
  ⟨rfl, start_jiggling_noop_when_active Platform.darwin false envOk sActive rfl⟩

/-- C7: `stop_jiggling` is idempotent — a second call changes nothing and
produces no error — the two calls together release the caffeinate resource
at most once, and `stop_caffeinate` is a no-op when no handle is held. -/
theorem stop_idempotent :
    ∀ (p : Platform) (s : AppState),
      stop_jiggling p (stop_jiggling p s) = stop_jiggling p s ∧
      (stop_jiggling p (stop_jiggling p s)).releaseCount ≤ s.releaseCount + 1 ∧
      (s.caffeinate_process = none → stop_caffeinate s = s) := by
  intro p s
  have hidem : stop_jiggling p (stop_jiggling p s) = stop_jiggling p s :=
    stop_jiggling_of_not_jiggling p (stop_jiggling p s)
      (stop_jiggling_not_jiggling p s)
  refine ⟨hidem, ?_, ?_⟩
  · rw [hidem]
    unfold stop_jiggling
    cases hb : s.jiggling
    · simp
    · simp only [if_true]
      split_ifs
      · exact stop_caffeinate_release_le _
      · exact Nat.le_succ _
  · intro hn
    unfold stop_caffeinate
    rw [hn]

/-- Witness for C7 at a concrete idle state with no handle. -/
theorem stop_idempotent_witness :
    stop_jiggling Platform.darwin (stop_jiggling Platform.darwin sHeld) =
      stop_jiggling Platform.darwin sHeld ∧
    sIdle.caffeinate_process = none ∧
    stop_caffeinate sIdle = sIdle :=
  ⟨(stop_idempotent Platform.darwin sHeld).1, rfl,
    (stop_idempotent Platform.darwin sIdle).2.2 rfl⟩

/-- C1: the power-assertion strategy (caffeinate) is selected exactly on
macOS when the range is 0 or mouse movement is not forced; every other
platform/configuration selects synthetic pointer movement, and
`start_jiggling` acquires a caffeinate handle exactly in the former
case. -/
theorem strategy_selection_rule :
    ∀ (p : Platform) (force : Bool) (e : JEnv) (s : AppState),
      s.jiggling = false → s.caffeinate_process = none → e.spawnOk = true →
      ((select_strategy p s.movement_range force = PreventionStrategy.PowerAssertion) ↔
        (p = Platform.darwin ∧ (s.movement_range = 0 ∨ force = false))) ∧
      ((select_strategy p s.movement_range force =
          PreventionStrategy.SyntheticPointerMovement) ↔
        ¬(p = Platform.darwin ∧ (s.movement_range = 0 ∨ force = false))) ∧
      (((start_jiggling p force e s).caffeinate_process.isSome = true) ↔
        (p = Platform.darwin ∧ (s.movement_range = 0 ∨ force = false))) := by
  intro p force e s hj hn hsp
  by_cases hc : p = Platform.darwin ∧ (s.movement_range = 0 ∨ force = false)
  · refine ⟨?_, ?_, ?_⟩
    · simp [select_strategy, hc]
    · simp [select_strategy, hc]
    · simp [start_jiggling, start_caffeinate, hj, hc, hc.1, hsp]
  · refine ⟨?_, ?_, ?_⟩
    · simp [select_strategy, hc]
    · simp [select_strategy, hc]
    · simp [start_jiggling, hj, hc, hn]

/-- Witness for C1: on macOS with range 5 and `force_mouse` off, starting
from idle acquires a caffeinate handle. -/
theorem strategy_selection_rule_witness :
    sIdle.jiggling = false ∧ sIdle.caffeinate_process = none ∧
    envOk.spawnOk = true ∧
    (((start_jiggling Platform.darwin false envOk sIdle).caffeinate_process.isSome = true) ↔
      (Platform.darwin = Platform.darwin ∧ (sIdle.movement_range = 0 ∨ false = false))) :=
  ⟨rfl, rfl, rfl,
    (strategy_selection_rule Platform.darwin false envOk sIdle rfl rfl rfl).2.2⟩

/-- C2 (amended): `next_jiggle_time` is reset to `now + interval` on every
path on which the cycle completes (returns `True`), and is left unchanged
when the cycle body raises and the `except` handler returns `False`. -/
theorem reschedule_iff_cycle_completes :
    ∀ (p : Platform) (force : Bool) (e : JEnv) (s : AppState),
      ((perform_jiggle p force e s).1).next_jiggle_time =
        (if (perform_jiggle p force e s).2 = true then e.now + (s.interval : Int)
         else s.next_jiggle_time) := by
  intro p force e s
  have hI : (refresh_caffeinate p force e s).interval = s.interval :=
    refresh_caffeinate_interval p force e s
  have hN : (refresh_caffeinate p force e s).next_jiggle_time = s.next_jiggle_time :=
    refresh_caffeinate_next p force e s
  simp only [perform_jiggle]
  by_cases hA : (p = Platform.darwin ∧
      ((refresh_caffeinate p force e s).movement_range = 0 ∨ force = false)) ∧
      (refresh_caffeinate p force e s).caffeinate_process.isSome = true
  · rw [if_pos hA]
    simp [hI]
  · rw [if_neg hA]
    by_cases hB : (refresh_caffeinate p force e s).movement_range = 0
    · rw [if_pos hB]
      simp [hI]
    · rw [if_neg hB]
      cases ho1 : (get_mouse_position p e.read1).outcome with
      | error v => simp [ho1, hN]
      | ok v =>
          cases ho2 : (get_mouse_position p e.read2).outcome with
          | error w => simp [ho1, ho2, hN]
          | ok w => simp [ho1, ho2, hI]

/-- C2 counterexample: a cycle whose body raises (macOS position read
fails) leaves `next_jiggle_time` unchanged, contradicting the claim that
the reschedule happens even when the cycle body raises. -/
theorem reschedule_unconditional_cex :
    ((perform_jiggle Platform.darwin true envRaise sActive).1).next_jiggle_time =
      sActive.next_jiggle_time ∧
    sActive.next_jiggle_time ≠ envRaise.now + (sActive.interval : Int) := by
  constructor
  · decide
  · decide

/-- C5: a cycle with range 0 and no live caffeinate handle performs no
pointer movement, logs the degraded-prevention warning once, and still
reports success. -/
theorem range_zero_degraded :
    ∀ (p : Platform) (force : Bool) (e : JEnv) (s : AppState),
      s.movement_range = 0 → s.caffeinate_process = none →
      ((perform_jiggle p force e s).1).moves = s.moves ∧
      ((perform_jiggle p force e s).1).degradedLogs = s.degradedLogs + 1 ∧
      (perform_jiggle p force e s).2 = true := by
  intro p force e s h0 hn
  have hr : refresh_caffeinate p force e s = s :=
    refresh_caffeinate_of_none p force e s hn
  simp only [perform_jiggle, hr]
  simp [hn, h0]

/-- Witness for C5 on Linux with range 0. -/
theorem range_zero_degraded_witness :
    sZero.movement_range = 0 ∧ sZero.caffeinate_process = none ∧
    ((perform_jiggle Platform.linux false envOk sZero).1).degradedLogs =
      sZero.degradedLogs + 1 :=
  ⟨rfl, rfl, (range_zero_degraded Platform.linux false envOk sZero rfl rfl).2.1⟩

theorem perform_jiggle_none_invariant :
    ∀ (p : Platform) (force : Bool) (e : JEnv) (s : AppState),
      s.caffeinate_process = none →
      ((perform_jiggle p force e s).1).caffeinate_process = none ∧
      ((perform_jiggle p force e s).1).fallbackLogs = s.fallbackLogs ∧
      ((perform_jiggle p force e s).1).lastPath ≠ some CyclePath.powerAssertion := by
  intro p force e s hn
  have hr : refresh_caffeinate p force e s = s :=
    refresh_caffeinate_of_none p force e s hn
  simp only [perform_jiggle, hr]
  rw [if_neg (by simp [hn])]
  by_cases hB : s.movement_range = 0
  · rw [if_pos hB]
    simp [hn]
  · rw [if_neg hB]
    cases ho1 : (get_mouse_position p e.read1).outcome with
    | error v => simp [ho1, hn]
    | ok v =>
        cases ho2 : (get_mouse_position p e.read2).outcome with
        | error w => simp [ho1, ho2, hn]
        | ok w => simp [ho1, ho2, hn]

theorem run_ticks_none_invariant :
    ∀ (p : Platform) (force : Bool) (envs : List JEnv) (s : AppState),
      s.caffeinate_process = none →
      (run_ticks p force envs s).caffeinate_process = none ∧
      (run_ticks p force envs s).fallbackLogs = s.fallbackLogs := by
  intro p force envs
  induction envs with
  | nil => exact fun s h => ⟨h, rfl⟩
  | cons e es ih =>
      intro s h
      have hstep := perform_jiggle_none_invariant p force e s h
      have hrec := ih ((perform_jiggle p force e s).1) hstep.1
      unfold run_ticks at hrec ⊢
      rw [List.foldl_cons]
      exact ⟨hrec.1, hrec.2.trans hstep.2.1⟩

/-- C3: when the caffeinate spawn fails at start (a strategy that selected
the power assertion), the handle stays `None`, exactly one fallback
warning is logged for the whole run — no tick ever logs another or
re-attempts the spawn — and no subsequent cycle takes the power-assertion
path (each one runs as a synthetic-movement cycle). -/
theorem acquire_failure_single_fallback :
    ∀ (force : Bool) (e0 : JEnv) (envs : List JEnv) (s : AppState),
      s.jiggling = false → s.caffeinate_process = none → s.fallbackLogs = 0 →
      (s.movement_range = 0 ∨ force = false) → e0.spawnOk = false →
      ((start_jiggling Platform.darwin force e0 s).caffeinate_process = none ∧
       (start_jiggling Platform.darwin force e0 s).fallbackLogs = 1) ∧
      ((run_ticks Platform.darwin force envs
          (start_jiggling Platform.darwin force e0 s)).fallbackLogs = 1 ∧
       (run_ticks Platform.darwin force envs
          (start_jiggling Platform.darwin force e0 s)).caffeinate_process = none) ∧
      (∀ (e : JEnv) (t : AppState), t.caffeinate_process = none →
        ((perform_jiggle Platform.darwin force e t).1).lastPath ≠
          some CyclePath.powerAssertion) := by
  intro force e0 envs s hj hn hf hc hsp
  have hstart : (start_jiggling Platform.darwin force e0 s).caffeinate_process = none ∧
      (start_jiggling Platform.darwin force e0 s).fallbackLogs = 1 := by
    simp [start_jiggling, start_caffeinate, stop_caffeinate, hj, hc, hn, hsp, hf]
  have hrun := run_ticks_none_invariant Platform.darwin force envs
    (start_jiggling Platform.darwin force e0 s) hstart.1
  refine ⟨hstart, ⟨hrun.2.trans hstart.2, hrun.1⟩, ?_⟩
  intro e t ht
  exact (perform_jiggle_none_invariant Platform.darwin force e t ht).2.2

/-- Witness for C3: idle macOS state, spawn fails at start, one tick
follows. -/
theorem acquire_failure_single_fallback_witness :
    (run_ticks Platform.darwin false [envOk]
        (start_jiggling Platform.darwin false envNoSpawn sIdle)).fallbackLogs = 1 ∧
    (run_ticks Platform.darwin false [envOk]
        (start_jiggling Platform.darwin false envNoSpawn sIdle)).caffeinate_process = none :=
  (acquire_failure_single_fallback false envNoSpawn [envOk] sIdle rfl rfl rfl
    (Or.inr rfl) rfl).2.1

theorem stop_caffeinate_release_some (s : AppState)
    (h : s.caffeinate_process.isSome = true) :
    (stop_caffeinate s).releaseCount = s.releaseCount + 1 := by
  unfold stop_caffeinate
  cases hp : s.caffeinate_process
  · rw [hp] at h
    cases h
  · rfl

/-- C6: `set_movement_range(p)` always stores the new range and never
changes the Idle/Active flag; while active, a change that crosses the
zero boundary leaves the caffeinate handle in the state the selection
rule dictates (acquired when the rule picks the power assertion, cleared
when it picks movement), terminating the old process first whenever one
was held and had to go. -/
theorem set_movement_range_spec :
    ∀ (p : Platform) (force : Bool) (e : JEnv) (pixels : Nat) (s : AppState),
      (p ≠ Platform.darwin → s.caffeinate_process = none) →
      (set_movement_range p force e pixels s).movement_range = pixels ∧
      (set_movement_range p force e pixels s).jiggling = s.jiggling ∧
      (s.jiggling = true →
        ((s.movement_range = 0 ∧ 0 < pixels) ∨
          (0 < s.movement_range ∧ pixels = 0)) →
        (select_strategy p pixels force = PreventionStrategy.SyntheticPointerMovement →
          (set_movement_range p force e pixels s).caffeinate_process = none) ∧
        (select_strategy p pixels force = PreventionStrategy.PowerAssertion →
          (pixels = 0 →
            (set_movement_range p force e pixels s).caffeinate_process =
              (if e.spawnOk = true then some e.newPid else none)) ∧
          (0 < pixels →
            (set_movement_range p force e pixels s).caffeinate_process =
              s.caffeinate_process)) ∧
        (s.caffeinate_process.isSome = true ∧
            (pixels = 0 ∨
              select_strategy p pixels force = PreventionStrategy.SyntheticPointerMovement) →
          (set_movement_range p force e pixels s).releaseCount =
            s.releaseCount + 1)) := by
  intro p force e pixels s hinv
  refine ⟨?_, ?_, ?_⟩
  · simp only [set_movement_range]
    split
    · simp
    · split
      · simp
      · simp
  · simp only [set_movement_range]
    split
    · simp
    · split
      · simp
      · simp
  · intro hact hcross
    cases p with
    | darwin =>
        by_cases hz : pixels = 0
        · subst hz
          refine ⟨?_, ?_, ?_⟩
          · intro hSPM
            exact absurd hSPM (by simp [select_strategy])
          · refine fun _ => ⟨fun _ => ?_, fun h0 => absurd h0 (lt_irrefl 0)⟩
            simp [set_movement_range, hact]
          · rintro ⟨hsome, -⟩
            simp [set_movement_range, hact, hsome]
        · have hpx : 0 < pixels := Nat.pos_of_ne_zero hz
          by_cases hfm : force
          · subst hfm
            refine ⟨?_, ?_, ?_⟩
            · intro _
              simp [set_movement_range, hz, hpx]
            · intro hPA
              exact absurd hPA (by simp [select_strategy, hz])
            · rintro ⟨hsome, -⟩
              simp [set_movement_range, hz, hpx, hsome]
          · have hff : force = false := Bool.eq_false_iff.mpr hfm
            subst hff
            refine ⟨?_, ?_, ?_⟩
            · intro hSPM
              exact absurd hSPM (by simp [select_strategy])
            · refine fun _ => ⟨fun h0 => absurd h0 hz, fun _ => ?_⟩
              simp [set_movement_range, hz]
            · rintro ⟨hsome, hsel⟩
              rcases hsel with h0 | hSPM
              · exact absurd h0 hz
              · exact absurd hSPM (by simp [select_strategy])
    | win32 =>
        have hn : s.caffeinate_process = none := hinv (by simp)
        refine ⟨?_, ?_, ?_⟩
        · intro _
          simp [set_movement_range, hn]
        · intro hPA
          exact absurd hPA (by simp [select_strategy])
        · rintro ⟨hsome, -⟩
          rw [hn] at hsome
          cases hsome
    | linux =>
        have hn : s.caffeinate_process = none := hinv (by simp)
        refine ⟨?_, ?_, ?_⟩
        · intro _
          simp [set_movement_range, hn]
        · intro hPA
          exact absurd hPA (by simp [select_strategy])
        · rintro ⟨hsome, -⟩
          rw [hn] at hsome
          cases hsome

/-- Witness for C6: while active on macOS with a held handle and range 5,
setting the range to 0 crosses the boundary: the old process is released
once and a fresh caffeinate handle is acquired. -/
theorem set_movement_range_spec_witness :
    sHeld.jiggling = true ∧
    (set_movement_range Platform.darwin true envOk 0 sHeld).movement_range = 0 ∧
    (set_movement_range Platform.darwin true envOk 0 sHeld).jiggling = sHeld.jiggling ∧
    (set_movement_range Platform.darwin true envOk 0 sHeld).caffeinate_process =
      (if envOk.spawnOk = true then some envOk.newPid else none) ∧
    (set_movement_range Platform.darwin true envOk 0 sHeld).releaseCount =
      sHeld.releaseCount + 1 := by
  have h := set_movement_range_spec Platform.darwin true envOk 0 sHeld
    (fun hne => absurd rfl hne)
  have h3 := h.2.2 rfl (Or.inr ⟨by decide, rfl⟩)
  exact ⟨rfl, h.1, h.2.1, (h3.2.1 (by decide)).1 rfl, h3.2.2 ⟨rfl, Or.inl rfl⟩⟩

/-- C8 counterexample: on macOS a failing platform read propagates as an
exception (`Except.error`), not the `(0, 0, 0)` default claimed for every
platform. -/
theorem read_failure_darwin_raises_cex :
    (get_mouse_position Platform.darwin readBad).outcome = Except.error () ∧
    (get_mouse_position Platform.darwin readBad).outcome ≠ Except.ok (0, 0, 0) := by
  refine ⟨rfl, ?_⟩
  intro h
  simp [get_mouse_position, readBad] at h

/-- C8 (amended): on Windows and Linux a failing read returns `(0, 0, 0)`
and logs the error; on macOS the failure propagates to the caller (where
the cycle's catch-all keeps it non-fatal).  On every platform, when no
display determinately contains the pointer, display index 0 is
returned. -/
theorem read_position_error_handling :
    ∀ e : ReadEnv,
      (e.raises = true →
        get_mouse_position Platform.win32 e =
          { outcome := Except.ok (0, 0, 0), errorLogged := true } ∧
        get_mouse_position Platform.linux e =
          { outcome := Except.ok (0, 0, 0), errorLogged := true } ∧
        (get_mouse_position Platform.darwin e).outcome = Except.error ()) ∧
      (e.raises = false → e.containing = none →
        (get_mouse_position Platform.darwin e).outcome = Except.ok (e.x, e.y, 0) ∧
        (get_mouse_position Platform.win32 e).outcome = Except.ok (e.x, e.y, 0) ∧
        (get_mouse_position Platform.linux e).outcome = Except.ok (e.x, e.y, 0)) := by
  intro e
  constructor
  · intro h
    refine ⟨?_, ?_, ?_⟩ <;> simp [get_mouse_position, h]
  · intro h hc
    refine ⟨?_, ?_, ?_⟩ <;> simp [get_mouse_position, h, hc]

/-- Witness for C8 (amended) at a failing read and at an indeterminate
display. -/
theorem read_position_error_handling_witness :
    readBad.raises = true ∧
    (get_mouse_position Platform.win32 readBad).outcome = Except.ok (0, 0, 0) ∧
    (get_mouse_position Platform.darwin { readOk with containing := none }).outcome =
      Except.ok (readOk.x, readOk.y, 0) := by
  refine ⟨rfl, ?_, ?_⟩
  · exact congrArg ReadResult.outcome
      ((read_position_error_handling readBad).1 rfl).1
  · exact ((read_position_error_handling { readOk with containing := none }).2 rfl rfl).1
